import Mathlib

/-
Verification of the billing-analyzer core (csv_analyzer.py, tsr_processor.py)
against its natural-language specification.

Months are identified by their index in the MONTHS list (0 = Jan .. 11 = Dec);
the source compares months via MONTHS.index, which is the Fin 12 order here.
Numeric cell values are rationals; a cell that is absent, NaN, or fails
float() parsing is `none`.  Python's true division (which raises
ZeroDivisionError on a zero divisor) is modelled by `pyDiv`, so any
computation whose source can raise returns an `Option`.
-/

namespace BillingAnalyzer

/-- Two-decimal rounding used for every `round(x, 2)` in the source,
as round-to-nearest of the value scaled by 100. -/
def round2 (q : ℚ) : ℚ := (((q * 100 + 1 / 2).floor : ℤ) : ℚ) / 100

/-- Python true division: raises (None here) when the divisor is zero. -/
def pyDiv (a b : ℚ) : Option ℚ := if b = 0 then none else some (a / b)

/-- Python str.upper(): upper-case every character. -/
def pyUpper (s : String) : String := String.mk (s.data.map Char.toUpper)

/-- DEPUTATION_FACTORS dict with the .get default 1 (csv_analyzer.py lines 21-25, 126). -/
def DEPUTATION_FACTORS (d : String) : ℚ :=
  if d = "OFFSHORE" then 0.88
  else if d = "ONSITE" then 0.95
  else if d = "NEARSHORE" then 0.90
  else 1

/-- DEPUTATION_HOURS dict with the .get default 8 (csv_analyzer.py lines 27-31, 127). -/
def DEPUTATION_HOURS (d : String) : ℚ :=
  if d = "ONSITE" then 8
  else if d = "OFFSHORE" then 8.75
  else if d = "NEARSHORE" then 9
  else 8

/-- One roster row after column normalization: the fields analyze_csv_bulk reads.
`rate` is the parsed "Average/Flat-lined Rate" cell (none on parse failure),
`monthActual` the parsed "{Mon} Actual" cells of the main CSV. -/
structure EmployeeRow where
  resource : String
  deputation : String
  rate : Option ℚ
  monthActual : Fin 12 → Option ℚ
  startDate : String
  endDate : String
  emplStatus : String

/-- replacement_info dict built by the app when a replacement is configured. -/
structure ReplacementInfo where
  replacement_name : String
  replacement_id : String
  join_month : Fin 12
  join_day : ℤ
  join_year : String

/-- The per-employee adjustment parameters handed to analyze_csv_bulk.
`left_in_month` / `leave_month` carry month indices; `leave_month = none`
models the falsy empty string of the no-leave case. -/
structure EmployeeParams where
  employee_left : Bool
  left_in_month : Fin 12
  left_day : ℤ
  left_year : String
  leave_month : Option (Fin 12)
  leave_days : ℤ
  replacement_info : Option ReplacementInfo

/-- Everything one iteration of the main employee loop consumes: working-days
config (with the default 21 already resolved into a total function), the
roster row, the adjustment params, and the aug-CSV override lookup
aug_dict[resource] for this employee. -/
structure Inputs where
  wdc : Fin 12 → ℕ
  row : EmployeeRow
  params : EmployeeParams
  aug : Fin 12 → Option ℚ

/-- Deputation billing factor of this row (line 125-126: upper-cased lookup). -/
def deputFactor (I : Inputs) : ℚ := DEPUTATION_FACTORS (pyUpper I.row.deputation)

/-- Deputation hours per day of this row (line 125, 127). -/
def deputHours (I : Inputs) : ℚ := DEPUTATION_HOURS (pyUpper I.row.deputation)

/-- avg_rate: float(record.get("Average/Flat-lined Rate", 0) or 0), 0 on failure. -/
def avgRate (I : Inputs) : ℚ := I.row.rate.getD 0

/-- Monthly figures written into the output record for one month. -/
structure MonthFig where
  planned : ℚ
  actual : ℚ
  billing : ℚ
  fromAug : Bool
deriving DecidableEq

/-- Resolution of the ACTUAL value for one month of the original record
(lines 174-208): aug CSV first, then the main CSV, else the computed value
with exit/leave adjustments.  Returns (actual, actual_from_csv, aug hit);
`none` models the ZeroDivisionError of an unguarded division. -/
def monthActualRes (I : Inputs) (m : Fin 12) : Option (ℚ × Bool × Bool) :=
  let working_days : ℚ := (I.wdc m : ℚ)
  let standard_hours := working_days * deputHours I
  match I.aug m with
  | some v => some (v, true, true)
  | none =>
    match I.row.monthActual m with
    | some v => some (v, true, false)
    | none =>
      if I.params.employee_left then
        if m = I.params.left_in_month then
          (pyDiv (I.params.left_day : ℚ) working_days).map
            (fun r => (round2 (r * standard_hours), false, false))
        else if I.params.left_in_month < m then some (0, false, false)
        else some (standard_hours, false, false)
      else
        match I.params.leave_month with
        | some lm =>
          if m = lm then
            (pyDiv (working_days - (I.params.leave_days : ℚ)) working_days).map
              (fun r => (round2 (standard_hours * r), false, false))
          else some (standard_hours, false, false)
        | none => some (standard_hours, false, false)

/-- PLANNED for one month of the original record (lines 171-172, 210-217). -/
def monthPlanned (I : Inputs) (m : Fin 12) : ℚ :=
  let standard_hours := (I.wdc m : ℚ) * deputHours I
  if I.params.employee_left then
    if m = I.params.left_in_month then standard_hours
    else if I.params.left_in_month < m then 0
    else standard_hours
  else standard_hours

/-- One month of the original record: planned, actual, billing (line 220), aug flag. -/
def monthFig (I : Inputs) (m : Fin 12) : Option MonthFig :=
  (monthActualRes I m).map fun ar =>
    { planned := monthPlanned I m
      actual := ar.1
      billing := round2 (ar.1 * deputFactor I * avgRate I)
      fromAug := ar.2.2 }

/-- Two-character zero padding of f"{n:02d}". -/
def pad2 (n : ℤ) : String :=
  let s := toString n
  if s.length < 2 then "0" ++ s else s

/-- End-date string f"{left_year}-{month_num:02d}-{left_day:02d}" (line 150);
the source builds it by string formatting with no calendar validation. -/
def endDateStr (p : EmployeeParams) : String :=
  p.left_year ++ "-" ++ pad2 ((p.left_in_month : ℕ) + 1 : ℤ) ++ "-" ++ pad2 p.left_day

/-- The fields of one output record that the analysis computes. -/
structure OutputRecord where
  resource : String
  emplStatus : String
  startDate : String
  endDate : String
  figs : Fin 12 → MonthFig
  totalPlanned : ℚ
  totalActual : ℚ
  diff : ℚ
  utilization : ℚ
  billingAmount : ℚ
  updatedFromCSV2 : String

/-- The original employee's output record (lines 123-234), defined when no
month raised: monthly figures, totals, diff, the guarded utilization
(truthiness test on total_planned_hours), billing amount, and the
"Updated From CSV2" flag which ends up "Yes" iff some month hit the aug CSV. -/
def buildRecord (I : Inputs) (h : ∀ m : Fin 12, (monthFig I m).isSome) : OutputRecord :=
  let figs : Fin 12 → MonthFig := fun m => (monthFig I m).get (h m)
  let totalPlanned : ℚ := ∑ m : Fin 12, (figs m).planned
  let totalActual : ℚ := ∑ m : Fin 12, (figs m).actual
  { resource := I.row.resource
    emplStatus := if I.params.employee_left then "Inactive" else I.row.emplStatus
    startDate := I.row.startDate
    endDate := if I.params.employee_left then endDateStr I.params else I.row.endDate
    figs := figs
    totalPlanned := totalPlanned
    totalActual := totalActual
    diff := round2 (totalPlanned - totalActual)
    utilization := if totalPlanned ≠ 0 then round2 (totalActual / totalPlanned * 100) else 0
    billingAmount := round2 (totalActual * deputFactor I * avgRate I)
    updatedFromCSV2 := if ∃ m : Fin 12, (figs m).fromAug = true then "Yes" else "No" }

/-- The whole per-employee computation: some record, or none when a month's
unguarded division raised (ZeroDivisionError aborts the call). -/
def processEmployee (I : Inputs) : Option OutputRecord :=
  if h : ∀ m : Fin 12, (monthFig I m).isSome then some (buildRecord I h) else none

/-- One month of the replacement record (lines 264-292): zero before the join
month, a join-day partial in the join month, full hours afterwards. -/
def repMonthFig (I : Inputs) (rep : ReplacementInfo) (m : Fin 12) : Option MonthFig :=
  let working_days : ℚ := (I.wdc m : ℚ)
  let standard_hours := working_days * deputHours I
  if m < rep.join_month then some { planned := 0, actual := 0, billing := 0, fromAug := false }
  else if m = rep.join_month then
    (pyDiv (working_days - ((rep.join_day : ℚ) - 1)) working_days).map fun r =>
      let actual := round2 (r * standard_hours)
      { planned := standard_hours
        actual := actual
        billing := round2 (actual * deputFactor I * avgRate I)
        fromAug := false }
  else
    some { planned := standard_hours
           actual := standard_hours
           billing := round2 (standard_hours * deputFactor I * avgRate I)
           fromAug := false }

/-- Start-date string f"{join_year}-{join_month_num:02d}-{join_day:02d}" (line 247). -/
def joinDateStr (rep : ReplacementInfo) : String :=
  rep.join_year ++ "-" ++ pad2 ((rep.join_month : ℕ) + 1 : ℤ) ++ "-" ++ pad2 rep.join_day

/-- The replacement employee's output record (lines 237-304): copy of the
original overwritten with the replacement name, "Active" status, the join
start date, the row's original end date, independently recomputed monthly
figures and totals, the strictly-positive utilization guard, and the
"Updated From CSV2" flag reset to "No". -/
def buildRepRecord (I : Inputs) (rep : ReplacementInfo)
    (h : ∀ m : Fin 12, (repMonthFig I rep m).isSome) : OutputRecord :=
  let figs : Fin 12 → MonthFig := fun m => (repMonthFig I rep m).get (h m)
  let totalPlanned : ℚ := ∑ m : Fin 12, (figs m).planned
  let totalActual : ℚ := ∑ m : Fin 12, (figs m).actual
  { resource := rep.replacement_name
    emplStatus := "Active"
    startDate := joinDateStr rep
    endDate := I.row.endDate
    figs := figs
    totalPlanned := totalPlanned
    totalActual := totalActual
    diff := round2 (totalPlanned - totalActual)
    utilization := if 0 < totalPlanned then round2 (totalActual / totalPlanned * 100) else 0
    billingAmount := round2 (totalActual * deputFactor I * avgRate I)
    updatedFromCSV2 := "No" }

/-- A month of the original record is defined whenever its working-days count
is nonzero: every division in the month computation divides by it. -/
theorem monthFig_isSome (I : Inputs) (m : Fin 12) (hw : I.wdc m ≠ 0) :
    (monthFig I m).isSome := by
  have h0 : ((I.wdc m : ℚ)) ≠ 0 := Nat.cast_ne_zero.mpr hw
  simp only [monthFig, monthActualRes, pyDiv, Option.isSome_map]
  cases I.aug m with
  | some v => simp
  | none =>
    cases I.row.monthActual m with
    | some v => simp
    | none =>
      cases hL : I.params.employee_left with
      | true =>
        by_cases hm : m = I.params.left_in_month
        · subst hm; simp [hw, h0]
        · by_cases hlt : I.params.left_in_month < m <;> simp [hm, hlt]
      | false =>
        cases I.params.leave_month with
        | some lm =>
          by_cases hm : m = lm
          · subst hm; simp [hw, h0]
          · simp [hm]
        | none => simp

/-- All twelve months are defined when no working-days count is zero. -/
theorem allMonthFig_isSome (I : Inputs) (hw : ∀ m : Fin 12, I.wdc m ≠ 0) :
    ∀ m : Fin 12, (monthFig I m).isSome := fun m => monthFig_isSome I m (hw m)

/-- A month of the replacement record is defined whenever its working-days
count is nonzero. -/
theorem repMonthFig_isSome (I : Inputs) (rep : ReplacementInfo) (m : Fin 12)
    (hw : I.wdc m ≠ 0) : (repMonthFig I rep m).isSome := by
  have h0 : ((I.wdc m : ℚ)) ≠ 0 := Nat.cast_ne_zero.mpr hw
  simp only [repMonthFig, pyDiv]
  by_cases hlt : m < rep.join_month
  · simp [hlt]
  · by_cases hm : m = rep.join_month
    · subst hm; simp [hlt, hw, h0]
    · simp [hlt, hm]

/-- All twelve replacement months are defined when no working-days count is zero. -/
theorem allRepMonthFig_isSome (I : Inputs) (rep : ReplacementInfo)
    (hw : ∀ m : Fin 12, I.wdc m ≠ 0) :
    ∀ m : Fin 12, (repMonthFig I rep m).isSome := fun m => repMonthFig_isSome I rep m (hw m)

theorem buildRecord_figs (I : Inputs) (h : ∀ m : Fin 12, (monthFig I m).isSome)
    (m : Fin 12) : (buildRecord I h).figs m = (monthFig I m).get (h m) := rfl

theorem buildRepRecord_figs (I : Inputs) (rep : ReplacementInfo)
    (h : ∀ m : Fin 12, (repMonthFig I rep m).isSome) (m : Fin 12) :
    (buildRepRecord I rep h).figs m = (repMonthFig I rep m).get (h m) := rfl

/-- C1: if the secondary (override) dataset supplies a numeric actual value for
this employee and month, the output record's actual for that month equals that
value exactly (no exit or leave adjustment touches it), and the record's
provenance flag "Updated From CSV2" is "Yes". -/
theorem C1_override_precedence (I : Inputs) (h : ∀ m : Fin 12, (monthFig I m).isSome)
    (m : Fin 12) (v : ℚ) (hv : I.aug m = some v) :
    ((buildRecord I h).figs m).actual = v ∧
    (buildRecord I h).updatedFromCSV2 = "Yes" := by
  have hfig : monthFig I m = some
      { planned := monthPlanned I m, actual := v,
        billing := round2 (v * deputFactor I * avgRate I), fromAug := true } := by
    simp [monthFig, monthActualRes, hv]
  constructor
  · rw [buildRecord_figs]
    simp [hfig]
  · have hex : ∃ m' : Fin 12, ((monthFig I m').get (h m')).fromAug = true :=
      ⟨m, by simp [hfig]⟩
    show (if ∃ m' : Fin 12, ((monthFig I m').get (h m')).fromAug = true
          then "Yes" else "No") = "Yes"
    rw [if_pos hex]

def rowW1 : EmployeeRow :=
  { resource := "Alice", deputation := "", rate := some 2
    monthActual := fun _ => none, startDate := "", endDate := "", emplStatus := "Active" }

def IW1 : Inputs :=
  { wdc := fun _ => 21
    row := rowW1
    params :=
      { employee_left := true, left_in_month := 0, left_day := 15, left_year := "2025"
        leave_month := none, leave_days := 0, replacement_info := none }
    aug := fun m => if m = 2 then some 100 else none }

theorem C1_witness :
    ((buildRecord IW1 (allMonthFig_isSome IW1 (by decide))).figs 2).actual = 100 ∧
    (buildRecord IW1 (allMonthFig_isSome IW1 (by decide))).updatedFromCSV2 = "Yes" :=
  C1_override_precedence IW1 (allMonthFig_isSome IW1 (by decide)) 2 100 rfl

/-- C2: with no CSV-provided actual, an exit adjustment gives, in the exit
month, actual = round(standardHours * exitDay / workingDays, 2) with planned
kept at the full standardHours; strictly after the exit month actual and
planned are 0; before it both are the full standardHours.  A leave adjustment
gives, in the leave month,
actual = round(standardHours * (workingDays - leaveDays) / workingDays, 2). -/
theorem C2_exit_leave_policy (I : Inputs) (h : ∀ m : Fin 12, (monthFig I m).isSome)
    (m : Fin 12) (hnoaug : I.aug m = none) (hnocsv : I.row.monthActual m = none) :
    (I.params.employee_left = true →
      ((m = I.params.left_in_month →
          ((buildRecord I h).figs m).actual
            = round2 ((I.wdc m : ℚ) * deputHours I * (I.params.left_day : ℚ) / (I.wdc m : ℚ))
          ∧ ((buildRecord I h).figs m).planned = (I.wdc m : ℚ) * deputHours I)
        ∧ (I.params.left_in_month < m →
            ((buildRecord I h).figs m).actual = 0
            ∧ ((buildRecord I h).figs m).planned = 0)
        ∧ (m < I.params.left_in_month →
            ((buildRecord I h).figs m).actual = (I.wdc m : ℚ) * deputHours I
            ∧ ((buildRecord I h).figs m).planned = (I.wdc m : ℚ) * deputHours I)))
    ∧ (I.params.employee_left = false → I.params.leave_month = some m →
        ((buildRecord I h).figs m).actual
          = round2 ((I.wdc m : ℚ) * deputHours I
              * ((I.wdc m : ℚ) - (I.params.leave_days : ℚ)) / (I.wdc m : ℚ))) := by
  constructor
  · intro hL
    refine ⟨?_, ?_, ?_⟩
    · intro hm
      subst hm
      by_cases hw : I.wdc I.params.left_in_month = 0
      · exfalso
        have hs := h I.params.left_in_month
        simp [monthFig, monthActualRes, hnoaug, hnocsv, hL, pyDiv, hw] at hs
      · constructor
        · rw [buildRecord_figs]
          simp [monthFig, monthActualRes, hnoaug, hnocsv, hL, pyDiv, hw]
          congr 1
          ring
        · rw [buildRecord_figs]
          simp [monthFig, monthActualRes, monthPlanned, hnoaug, hnocsv, hL, pyDiv, hw]
    · intro hlt
      have hm : m ≠ I.params.left_in_month := hlt.ne'
      rw [buildRecord_figs]
      simp [monthFig, monthActualRes, monthPlanned, hnoaug, hnocsv, hL, hm, hlt]
    · intro hlt
      have hm : m ≠ I.params.left_in_month := hlt.ne
      have hnlt : ¬ I.params.left_in_month < m := not_lt.mpr hlt.le
      rw [buildRecord_figs]
      simp [monthFig, monthActualRes, monthPlanned, hnoaug, hnocsv, hL, hm, hnlt]
  · intro hL hlm
    by_cases hw : ((I.wdc m : ℚ)) = 0
    · exfalso
      have hs := h m
      simp [monthFig, monthActualRes, hnoaug, hnocsv, hL, hlm, pyDiv, hw] at hs
    · rw [buildRecord_figs]
      simp [monthFig, monthActualRes, hnoaug, hnocsv, hL, hlm, pyDiv, hw]
      congr 1
      ring

def rowW2 : EmployeeRow :=
  { resource := "Bob", deputation := "", rate := some 1
    monthActual := fun _ => none, startDate := "", endDate := "", emplStatus := "Active" }

def IW2 : Inputs :=
  { wdc := fun _ => 21
    row := rowW2
    params :=
      { employee_left := true, left_in_month := 1, left_day := 15, left_year := "2025"
        leave_month := none, leave_days := 0, replacement_info := none }
    aug := fun _ => none }

def rowW3 : EmployeeRow :=
  { resource := "Carol", deputation := "NEARSHORE", rate := some 1
    monthActual := fun _ => none, startDate := "", endDate := "", emplStatus := "Active" }

def IW3 : Inputs :=
  { wdc := fun _ => 21
    row := rowW3
    params :=
      { employee_left := false, left_in_month := 0, left_day := 0, left_year := ""
        leave_month := some 3, leave_days := 5, replacement_info := none }
    aug := fun _ => none }

theorem C2_witness :
    ((buildRecord IW2 (allMonthFig_isSome IW2 (by decide))).figs 1).actual = 120 ∧
    ((buildRecord IW2 (allMonthFig_isSome IW2 (by decide))).figs 1).planned = 168 ∧
    ((buildRecord IW2 (allMonthFig_isSome IW2 (by decide))).figs 2).actual = 0 ∧
    ((buildRecord IW2 (allMonthFig_isSome IW2 (by decide))).figs 2).planned = 0 ∧
    ((buildRecord IW2 (allMonthFig_isSome IW2 (by decide))).figs 0).actual = 168 ∧
    ((buildRecord IW3 (allMonthFig_isSome IW3 (by decide))).figs 3).actual = 144 := by
  have hup2 : pyUpper "" = "" := by decide
  have hup3 : pyUpper "NEARSHORE" = "NEARSHORE" := by decide
  have hh8 : DEPUTATION_HOURS "" = 8 := by decide
  have hh9 : DEPUTATION_HOURS "NEARSHORE" = 9 := by decide
  have h2 := C2_exit_leave_policy IW2 (allMonthFig_isSome IW2 (by decide)) 1 rfl rfl
  have h2a := C2_exit_leave_policy IW2 (allMonthFig_isSome IW2 (by decide)) 2 rfl rfl
  have h2b := C2_exit_leave_policy IW2 (allMonthFig_isSome IW2 (by decide)) 0 rfl rfl
  have h3 := C2_exit_leave_policy IW3 (allMonthFig_isSome IW3 (by decide)) 3 rfl rfl
  obtain ⟨hexm, hafter, hbefore⟩ := h2.1 rfl
  refine ⟨?_, ?_, ?_, ?_, ?_, ?_⟩
  · rw [(hexm rfl).1]
    norm_num [IW2, rowW2, deputHours, hup2, hh8, round2, Rat.floor]
  · rw [(hexm rfl).2]
    norm_num [IW2, rowW2, deputHours, hup2, hh8]
  · exact ((h2a.1 rfl).2.1 (by decide)).1
  · exact ((h2a.1 rfl).2.1 (by decide)).2
  · rw [((h2b.1 rfl).2.2 (by decide)).1]
    norm_num [IW2, rowW2, deputHours, hup2, hh8]
  · rw [h3.2 rfl rfl]
    norm_num [IW3, rowW3, deputHours, hup3, hh9, round2, Rat.floor]

/-- C3: the replacement record's monthly figures satisfy: before the join
month planned = actual = 0; in the join month planned = standardHours and
actual = round(standardHours * (workingDays - (joinDay - 1)) / workingDays, 2);
after the join month planned = actual = standardHours. -/
theorem C3_replacement_schedule (I : Inputs) (rep : ReplacementInfo)
    (h : ∀ m : Fin 12, (repMonthFig I rep m).isSome) (m : Fin 12) :
    (m < rep.join_month →
        ((buildRepRecord I rep h).figs m).planned = 0
        ∧ ((buildRepRecord I rep h).figs m).actual = 0)
    ∧ (m = rep.join_month →
        ((buildRepRecord I rep h).figs m).planned = (I.wdc m : ℚ) * deputHours I
        ∧ ((buildRepRecord I rep h).figs m).actual
            = round2 ((I.wdc m : ℚ) * deputHours I
                * ((I.wdc m : ℚ) - ((rep.join_day : ℚ) - 1)) / (I.wdc m : ℚ)))
    ∧ (rep.join_month < m →
        ((buildRepRecord I rep h).figs m).planned = (I.wdc m : ℚ) * deputHours I
        ∧ ((buildRepRecord I rep h).figs m).actual = (I.wdc m : ℚ) * deputHours I) := by
  refine ⟨?_, ?_, ?_⟩
  · intro hlt
    rw [buildRepRecord_figs]
    simp [repMonthFig, hlt]
  · intro hm
    subst hm
    by_cases hw : I.wdc rep.join_month = 0
    · exfalso
      have hs := h rep.join_month
      simp [repMonthFig, pyDiv, hw] at hs
    · constructor
      · rw [buildRepRecord_figs]
        simp [repMonthFig, pyDiv, hw]
      · rw [buildRepRecord_figs]
        simp [repMonthFig, pyDiv, hw]
        congr 1
        ring
  · intro hlt
    have hm : m ≠ rep.join_month := hlt.ne'
    have hnlt : ¬ m < rep.join_month := not_lt.mpr hlt.le
    rw [buildRepRecord_figs]
    simp [repMonthFig, hm, hnlt]

def repW : ReplacementInfo :=
  { replacement_name := "Dana", replacement_id := "99", join_month := 1
    join_day := 10, join_year := "2025" }

theorem C3_witness :
    ((buildRepRecord IW2 repW (allRepMonthFig_isSome IW2 repW (by decide))).figs 0).planned = 0 ∧
    ((buildRepRecord IW2 repW (allRepMonthFig_isSome IW2 repW (by decide))).figs 0).actual = 0 ∧
    ((buildRepRecord IW2 repW (allRepMonthFig_isSome IW2 repW (by decide))).figs 1).planned = 168 ∧
    ((buildRepRecord IW2 repW (allRepMonthFig_isSome IW2 repW (by decide))).figs 1).actual = 96 ∧
    ((buildRepRecord IW2 repW (allRepMonthFig_isSome IW2 repW (by decide))).figs 2).actual = 168 := by
  have hup2 : pyUpper "" = "" := by decide
  have hh8 : DEPUTATION_HOURS "" = 8 := by decide
  have hb := C3_replacement_schedule IW2 repW (allRepMonthFig_isSome IW2 repW (by decide)) 0
  have hj := C3_replacement_schedule IW2 repW (allRepMonthFig_isSome IW2 repW (by decide)) 1
  have ha := C3_replacement_schedule IW2 repW (allRepMonthFig_isSome IW2 repW (by decide)) 2
  refine ⟨(hb.1 (by decide)).1, (hb.1 (by decide)).2, ?_, ?_, ?_⟩
  · rw [(hj.2.1 rfl).1]
    norm_num [IW2, rowW2, deputHours, hup2, hh8]
  · rw [(hj.2.1 rfl).2]
    norm_num [IW2, rowW2, repW, deputHours, hup2, hh8, round2, Rat.floor]
  · rw [(ha.2.2 (by decide)).2]
    norm_num [IW2, rowW2, deputHours, hup2, hh8]

/-- C4: with no adjustment and no CSV-provided actual, a month's actual is
workingDays * hoursPerDay(deputation) and its billing is
round(actual * billingFactor * rate, 2); deputations outside
ONSITE/OFFSHORE/NEARSHORE get the neutral factor 1 and 8 hours per day. -/
theorem C4_no_adjustment (I : Inputs) (h : ∀ m : Fin 12, (monthFig I m).isSome)
    (m : Fin 12) (hL : I.params.employee_left = false)
    (hlm : I.params.leave_month = none)
    (hnoaug : I.aug m = none) (hnocsv : I.row.monthActual m = none) :
    ((buildRecord I h).figs m).actual = (I.wdc m : ℚ) * deputHours I
    ∧ ((buildRecord I h).figs m).billing
        = round2 (((buildRecord I h).figs m).actual * deputFactor I * avgRate I)
    ∧ (∀ d : String, d ≠ "ONSITE" → d ≠ "OFFSHORE" → d ≠ "NEARSHORE" →
        DEPUTATION_FACTORS d = 1 ∧ DEPUTATION_HOURS d = 8) := by
  have hfig : monthFig I m = some
      { planned := monthPlanned I m
        actual := (I.wdc m : ℚ) * deputHours I
        billing := round2 ((I.wdc m : ℚ) * deputHours I * deputFactor I * avgRate I)
        fromAug := false } := by
    simp [monthFig, monthActualRes, hnoaug, hnocsv, hL, hlm]
  refine ⟨?_, ?_, ?_⟩
  · rw [buildRecord_figs]
    simp [hfig]
  · rw [buildRecord_figs]
    simp [hfig]
  · intro d h1 h2 h3
    constructor
    · unfold DEPUTATION_FACTORS
      rw [if_neg h2, if_neg h1, if_neg h3]
    · unfold DEPUTATION_HOURS
      rw [if_neg h1, if_neg h2, if_neg h3]

def rowW4 : EmployeeRow :=
  { resource := "Frank", deputation := "OTHER", rate := some 2
    monthActual := fun _ => none, startDate := "", endDate := "", emplStatus := "Active" }

def IW4 : Inputs :=
  { wdc := fun _ => 21
    row := rowW4
    params :=
      { employee_left := false, left_in_month := 0, left_day := 0, left_year := ""
        leave_month := none, leave_days := 0, replacement_info := none }
    aug := fun _ => none }

theorem C4_witness :
    ((buildRecord IW4 (allMonthFig_isSome IW4 (by decide))).figs 5).actual = 168 ∧
    ((buildRecord IW4 (allMonthFig_isSome IW4 (by decide))).figs 5).billing = 336 ∧
    DEPUTATION_FACTORS "OTHER" = 1 ∧ DEPUTATION_HOURS "OTHER" = 8 := by
  have hup : pyUpper "OTHER" = "OTHER" := by decide
  have hh : DEPUTATION_HOURS "OTHER" = 8 := by decide
  have hf : DEPUTATION_FACTORS "OTHER" = 1 := by decide
  obtain ⟨ha, hb, hd⟩ := C4_no_adjustment IW4 (allMonthFig_isSome IW4 (by decide)) 5 rfl rfl rfl rfl
  have ha' : ((buildRecord IW4 (allMonthFig_isSome IW4 (by decide))).figs 5).actual = 168 := by
    rw [ha]
    norm_num [IW4, rowW4, deputHours, hup, hh]
  refine ⟨ha', ?_, hf, hh⟩
  rw [hb, ha']
  norm_num [IW4, rowW4, deputFactor, avgRate, hup, hf, round2, Rat.floor]

def IZ1 : Inputs :=
  { wdc := fun _ => 0
    row := rowW2
    params :=
      { employee_left := true, left_in_month := 0, left_day := 15, left_year := "2025"
        leave_month := none, leave_days := 0, replacement_info := none }
    aug := fun _ => none }

def IZ2 : Inputs :=
  { wdc := fun _ => 0
    row := rowW2
    params :=
      { employee_left := false, left_in_month := 0, left_day := 0, left_year := ""
        leave_month := some 0, leave_days := 5, replacement_info := none }
    aug := fun _ => none }

/-- C5: the source has no guard on the divisions by workingDays(month): with
workingDays = 0 the exit-month partial, the leave-days partial and the
replacement join-month partial all raise ZeroDivisionError (modelled as none)
instead of treating the ratio as 0 as the specification requires. -/
theorem C5_unguarded_division :
    monthFig IZ1 0 = none ∧ processEmployee IZ1 = none ∧
    monthFig IZ2 0 = none ∧ repMonthFig IZ1 repW 1 = none := by
  have h1 : monthFig IZ1 0 = none := by
    simp [monthFig, monthActualRes, IZ1, rowW2, pyDiv]
  refine ⟨h1, ?_, ?_, ?_⟩
  · unfold processEmployee
    rw [dif_neg]
    intro hall
    have h0 := hall 0
    rw [h1] at h0
    simp at h0
  · simp [monthFig, monthActualRes, IZ2, rowW2, pyDiv]
  · simp [repMonthFig, IZ1, repW, pyDiv]

/-- validate_csv_columns (csv_analyzer.py lines 56-67): three separate checks,
each raising ValueError (modelled as Except.error) on its own message; the
first failing check wins, so only one missing column is ever named. -/
def validate_csv_columns (cols : List String) (csv_name : String) : Except String Unit :=
  let has_resource := cols.contains "Resource"
  let has_deputation := cols.contains "Deputation"
  let has_rate := cols.contains "Average/Flat-lined Rate"
  if !has_resource then
    Except.error (csv_name ++ " is missing 'Resource' or 'NAME' column")
  else if !has_deputation then
    Except.error (csv_name ++ " is missing 'Deputation' column")
  else if !has_rate then
    Except.error (csv_name ++ " is missing 'Average/Flat-lined Rate' or 'Rate' column")
  else Except.ok ()

/-- Substring test: does `msg` contain `col` as a contiguous substring. -/
def strMentions (msg col : String) : Bool :=
  msg.data.tails.any (fun t => col.data.isPrefixOf t)

def MANDATORY_COLUMNS : List String := ["Resource", "Deputation", "Average/Flat-lined Rate"]

/-- The mandatory columns absent from a header list, in check order. -/
def missingMandatory (cols : List String) : List String :=
  MANDATORY_COLUMNS.filter (fun c => !cols.contains c)

/-- C6 counterexample: with both Resource and Deputation missing the raised
message names only Resource, so the error does not name every missing
mandatory column as the claim states. -/
theorem C6_counterexample :
    missingMandatory ["Average/Flat-lined Rate"] = ["Resource", "Deputation"] ∧
    validate_csv_columns ["Average/Flat-lined Rate"] "Main CSV"
      = Except.error "Main CSV is missing 'Resource' or 'NAME' column" ∧
    strMentions "Main CSV is missing 'Resource' or 'NAME' column" "Deputation" = false := by
  refine ⟨by decide, rfl, by decide⟩

/-- C6 amended: validation fails whenever a mandatory column is missing, but
the error names only the first missing mandatory column in the fixed check
order Resource, Deputation, Average/Flat-lined Rate; mandatory columns
missing later in that order are not named. -/
theorem C6_first_missing_named (cols : List String)
    (hm : missingMandatory cols ≠ []) :
    ∃ msg, validate_csv_columns cols "Main CSV" = Except.error msg
      ∧ strMentions msg ((missingMandatory cols).headD "") = true
      ∧ ∀ c ∈ (missingMandatory cols).tail, strMentions msg c = false := by
  by_cases h1 : "Resource" ∈ cols
  · by_cases h2 : "Deputation" ∈ cols
    · by_cases h3 : "Average/Flat-lined Rate" ∈ cols
      · exact absurd (by simp [missingMandatory, MANDATORY_COLUMNS, h1, h2, h3]) hm
      · refine ⟨"Main CSV is missing 'Average/Flat-lined Rate' or 'Rate' column", ?_, ?_, ?_⟩
        · simp [validate_csv_columns, h1, h2, h3]
        · simp only [missingMandatory, MANDATORY_COLUMNS]
          simp [h1, h2, h3]
          decide
        · simp only [missingMandatory, MANDATORY_COLUMNS]
          simp [h1, h2, h3]
    · refine ⟨"Main CSV is missing 'Deputation' column", ?_, ?_, ?_⟩
      · simp [validate_csv_columns, h1, h2]
      · simp only [missingMandatory, MANDATORY_COLUMNS]
        simp [h1, h2]
        decide
      · simp only [missingMandatory, MANDATORY_COLUMNS]
        simp [h1, h2]
        exact fun _ => by decide
  · refine ⟨"Main CSV is missing 'Resource' or 'NAME' column", ?_, ?_, ?_⟩
    · simp [validate_csv_columns, h1]
    · simp only [missingMandatory, MANDATORY_COLUMNS]
      simp [h1]
      decide
    · simp only [missingMandatory, MANDATORY_COLUMNS]
      simp [h1]
      exact ⟨fun _ => by decide, fun _ => by decide⟩

theorem C6_witness :
    validate_csv_columns [] "Main CSV"
      = Except.error "Main CSV is missing 'Resource' or 'NAME' column"
    ∧ strMentions "Main CSV is missing 'Resource' or 'NAME' column" "Resource" = true := by
  obtain ⟨msg, hmsg, hnames, -⟩ := C6_first_missing_named [] (by decide)
  have hv : validate_csv_columns [] "Main CSV"
      = Except.error "Main CSV is missing 'Resource' or 'NAME' column" := rfl
  rw [hv] at hmsg
  simp only [Except.error.injEq] at hmsg
  subst hmsg
  refine ⟨hv, ?_⟩
  simpa [missingMandatory, MANDATORY_COLUMNS] using hnames

theorem deputHours_nonneg (I : Inputs) : 0 ≤ deputHours I := by
  unfold deputHours DEPUTATION_HOURS
  split_ifs <;> norm_num

theorem repFig_planned_nonneg (I : Inputs) (rep : ReplacementInfo) (m : Fin 12)
    (h : (repMonthFig I rep m).isSome) :
    0 ≤ ((repMonthFig I rep m).get h).planned := by
  have hsh : (0 : ℚ) ≤ (I.wdc m : ℚ) * deputHours I :=
    mul_nonneg (Nat.cast_nonneg _) (deputHours_nonneg I)
  by_cases h1 : m < rep.join_month
  · simp [repMonthFig, h1]
  · by_cases h2 : m = rep.join_month
    · subst h2
      by_cases hw : I.wdc rep.join_month = 0
      · exfalso
        have := h
        simp [repMonthFig, pyDiv, h1, hw] at this
      · simp [repMonthFig, pyDiv, h1, hw, hsh]
    · simp [repMonthFig, h1, h2, hsh]

theorem buildRecord_totalPlanned (I : Inputs) (h : ∀ m : Fin 12, (monthFig I m).isSome) :
    (buildRecord I h).totalPlanned = ∑ m : Fin 12, ((monthFig I m).get (h m)).planned := rfl

theorem buildRecord_totalActual (I : Inputs) (h : ∀ m : Fin 12, (monthFig I m).isSome) :
    (buildRecord I h).totalActual = ∑ m : Fin 12, ((monthFig I m).get (h m)).actual := rfl

theorem buildRecord_utilization (I : Inputs) (h : ∀ m : Fin 12, (monthFig I m).isSome) :
    (buildRecord I h).utilization
      = if (buildRecord I h).totalPlanned ≠ 0
        then round2 ((buildRecord I h).totalActual / (buildRecord I h).totalPlanned * 100)
        else 0 := rfl

theorem buildRepRecord_totalPlanned (I : Inputs) (rep : ReplacementInfo)
    (h : ∀ m : Fin 12, (repMonthFig I rep m).isSome) :
    (buildRepRecord I rep h).totalPlanned
      = ∑ m : Fin 12, ((repMonthFig I rep m).get (h m)).planned := rfl

theorem buildRepRecord_utilization (I : Inputs) (rep : ReplacementInfo)
    (h : ∀ m : Fin 12, (repMonthFig I rep m).isSome) :
    (buildRepRecord I rep h).utilization
      = if 0 < (buildRepRecord I rep h).totalPlanned
        then round2 ((buildRepRecord I rep h).totalActual
               / (buildRepRecord I rep h).totalPlanned * 100)
        else 0 := rfl

/-- C7: for the original record and the replacement record, Utilization % is
round(100 * totalActual / totalPlanned, 2) when totalPlanned is nonzero and 0
when totalPlanned is 0 (no division fault), and Billing Amount is
round(totalActual * billingFactor * rate, 2). -/
theorem C7_utilization_and_billing (I : Inputs)
    (h : ∀ m : Fin 12, (monthFig I m).isSome)
    (rep : ReplacementInfo) (hr : ∀ m : Fin 12, (repMonthFig I rep m).isSome) :
    ((buildRecord I h).totalPlanned ≠ 0 →
        (buildRecord I h).utilization
          = round2 (100 * (buildRecord I h).totalActual / (buildRecord I h).totalPlanned))
    ∧ ((buildRecord I h).totalPlanned = 0 → (buildRecord I h).utilization = 0)
    ∧ (buildRecord I h).billingAmount
        = round2 ((buildRecord I h).totalActual * deputFactor I * avgRate I)
    ∧ ((buildRepRecord I rep hr).totalPlanned ≠ 0 →
        (buildRepRecord I rep hr).utilization
          = round2 (100 * (buildRepRecord I rep hr).totalActual
              / (buildRepRecord I rep hr).totalPlanned))
    ∧ ((buildRepRecord I rep hr).totalPlanned = 0 →
        (buildRepRecord I rep hr).utilization = 0)
    ∧ (buildRepRecord I rep hr).billingAmount
        = round2 ((buildRepRecord I rep hr).totalActual * deputFactor I * avgRate I) := by
  have hnn : 0 ≤ (buildRepRecord I rep hr).totalPlanned := by
    rw [buildRepRecord_totalPlanned]
    exact Finset.sum_nonneg fun m _ => repFig_planned_nonneg I rep m (hr m)
  refine ⟨?_, ?_, rfl, ?_, ?_, rfl⟩
  · intro hne
    rw [buildRecord_utilization, if_pos hne]
    congr 1
    ring
  · intro h0
    rw [buildRecord_utilization, if_neg (fun hn => hn h0)]
  · intro hne
    rw [buildRepRecord_utilization, if_pos (lt_of_le_of_ne hnn (Ne.symm hne))]
    congr 1
    ring
  · intro h0
    rw [buildRepRecord_utilization, if_neg (by simp [h0])]

theorem C7_witness :
    (buildRecord IW4 (allMonthFig_isSome IW4 (by decide))).utilization
      = round2 (100 * (buildRecord IW4 (allMonthFig_isSome IW4 (by decide))).totalActual
          / (buildRecord IW4 (allMonthFig_isSome IW4 (by decide))).totalPlanned)
    ∧ (buildRecord IW4 (allMonthFig_isSome IW4 (by decide))).billingAmount
        = round2 ((buildRecord IW4 (allMonthFig_isSome IW4 (by decide))).totalActual
            * deputFactor IW4 * avgRate IW4)
    ∧ (buildRepRecord IW4 repW (allRepMonthFig_isSome IW4 repW (by decide))).billingAmount
        = round2 ((buildRepRecord IW4 repW (allRepMonthFig_isSome IW4 repW (by decide))).totalActual
            * deputFactor IW4 * avgRate IW4) := by
  obtain ⟨hu, -, hb, -, -, hrb⟩ :=
    C7_utilization_and_billing IW4 (allMonthFig_isSome IW4 (by decide))
      repW (allRepMonthFig_isSome IW4 repW (by decide))
  have hup : pyUpper "OTHER" = "OTHER" := by decide
  have hh : DEPUTATION_HOURS "OTHER" = 8 := by decide
  have htp : (buildRecord IW4 (allMonthFig_isSome IW4 (by decide))).totalPlanned = 2016 := by
    rw [buildRecord_totalPlanned]
    have hfig : ∀ m : Fin 12,
        ((monthFig IW4 m).get (allMonthFig_isSome IW4 (by decide) m)).planned = 168 := by
      intro m
      norm_num [monthFig, monthActualRes, monthPlanned, IW4, rowW4, deputHours, hup, hh]
    rw [Finset.sum_congr rfl fun m _ => hfig m]
    simp
    norm_num
  exact ⟨hu (by rw [htp]; norm_num), hb, hrb⟩

/-- A cell of the TSR Code column: an integer, a string, or NaN. -/
inductive Cell where
  | int (n : ℤ)
  | str (s : String)
  | na
deriving DecidableEq

/-- pandas astype(str) rendering of a cell (NaN prints as "nan"). -/
def cellStr : Cell → String
  | Cell.int n => toString n
  | Cell.str s => s
  | Cell.na => "nan"

/-- One row of the TSR table: the code cell, the TSR Name, and the
local-currency amount columns (none = column missing, NaN or unparseable). -/
structure TSRRow where
  code : Cell
  name : String
  amounts : String → Option ℚ

/-- DEPUTATION_TO_COUNTRY dict with the .get default "USA"
(tsr_processor.py lines 6-10, 131). -/
def DEPUTATION_TO_COUNTRY (d : String) : String :=
  if d = "ONSITE" then "USA"
  else if d = "NEARSHORE" then "India"
  else if d = "OFFSHORE" then "Mexico"
  else "USA"

/-- COUNTRY_TO_CURRENCY dict with the .get default "USD"
(tsr_processor.py lines 20-29, 134). -/
def COUNTRY_TO_CURRENCY (c : String) : String :=
  if c = "India" then "INR"
  else if c = "Mexico" then "MXN"
  else if c = "USA" then "USD"
  else if c = "Philippines" then "PHP"
  else if c = "Poland" then "PLN"
  else if c = "Canada" then "CAD"
  else if c = "Brazil" then "BRL"
  else if c = "Argentina" then "ARS"
  else "USD"

/-- Python str.strip(): drop leading and trailing whitespace. -/
def pyStrip (s : String) : String :=
  String.mk (((s.data.dropWhile Char.isWhitespace).reverse.dropWhile
    Char.isWhitespace).reverse)

/-- Digit-sequence value, none when empty or a non-digit appears. -/
def parseDigits (cs : List Char) : Option ℕ :=
  if cs = [] then none
  else if cs.all Char.isDigit then
    some (cs.foldl (fun n c => 10 * n + (c.toNat - 48)) 0)
  else none

/-- Python int() on a token: optional sign followed by digits, else ValueError. -/
def pyInt (s : String) : Option ℤ :=
  match s.data with
  | '-' :: rest => (parseDigits rest).map (fun n => -(n : ℤ))
  | '+' :: rest => (parseDigits rest).map (fun n => (n : ℤ))
  | cs => (parseDigits cs).map (fun n => (n : ℤ))

/-- Leading-numeric-token parse of a TSR code (tsr_processor.py lines 106-113):
str(...).strip(), split()[0] when the stripped string contains a space (for a
stripped string this is its longest leading run of non-whitespace), then
int(); none models the caught ValueError. -/
def parseTSRCode (s0 : String) : Option ℤ :=
  let s := pyStrip s0
  let tok := if s.data.contains ' ' then
      String.mk (s.data.takeWhile (fun c => !c.isWhitespace))
    else s
  pyInt tok

/-- Row lookup (tsr_processor.py lines 116-121): numeric equality on the
TSR Code column first, then string equality on astype(str); the first
matching row wins (iloc[0]). -/
def findTSRRecord (tbl : List TSRRow) (n : ℤ) : Option TSRRow :=
  match tbl.find? (fun r => r.code == Cell.int n) with
  | some r => some r
  | none => tbl.find? (fun r => cellStr r.code == toString n)

/-- get_tsr_amount_for_employee (tsr_processor.py lines 88-149): returns
(tsr_amount_usd, tsr_name, currency_used), defaulting the amount to 0 on
every failure branch. -/
def get_tsr_amount_for_employee (tbl : List TSRRow) (tsr_code : Option String)
    (deputation offshore_country : String) (exchange_rates : String → Option ℚ) :
    ℚ × String × String :=
  match tsr_code with
  | none => (0, "", "")
  | some c =>
    if c = "" then (0, "", "")
    else
      match parseTSRCode c with
      | none => (0, "", "")
      | some n =>
        match findTSRRecord tbl n with
        | none => (0, "", "")
        | some r =>
          let d := pyUpper deputation
          let country := if d = "OFFSHORE" then offshore_country
            else DEPUTATION_TO_COUNTRY d
          let currency := COUNTRY_TO_CURRENCY country
          match r.amounts currency with
          | none => (0, r.name, currency)
          | some amt =>
            (round2 (amt * ((exchange_rates currency).getD 1)), r.name, currency)

/-- C8: the per-employee service-rate lookup is a total function that yields
amount 0 and empty name on a missing, empty or non-numeric code and on an
unmatched code, and amount 0 with the matched row's name when the
local-currency amount is missing or unparseable; the run always continues. -/
theorem C8_tsr_lookup_defaults :
    (∀ tbl dep oc rates,
      get_tsr_amount_for_employee tbl none dep oc rates = (0, "", "")) ∧
    (∀ tbl dep oc rates,
      get_tsr_amount_for_employee tbl (some "") dep oc rates = (0, "", "")) ∧
    (∀ tbl c dep oc rates, c ≠ "" → parseTSRCode c = none →
      get_tsr_amount_for_employee tbl (some c) dep oc rates = (0, "", "")) ∧
    (∀ tbl c n dep oc rates, c ≠ "" → parseTSRCode c = some n →
      findTSRRecord tbl n = none →
      get_tsr_amount_for_employee tbl (some c) dep oc rates = (0, "", "")) ∧
    (∀ tbl c n r dep oc rates, c ≠ "" → parseTSRCode c = some n →
      findTSRRecord tbl n = some r →
      r.amounts (COUNTRY_TO_CURRENCY
        (if pyUpper dep = "OFFSHORE" then oc
         else DEPUTATION_TO_COUNTRY (pyUpper dep))) = none →
      (get_tsr_amount_for_employee tbl (some c) dep oc rates).1 = 0 ∧
      (get_tsr_amount_for_employee tbl (some c) dep oc rates).2.1 = r.name) := by
  refine ⟨fun tbl dep oc rates => rfl, fun tbl dep oc rates => rfl, ?_, ?_, ?_⟩
  · intro tbl c dep oc rates hc hp
    simp [get_tsr_amount_for_employee, hc, hp]
  · intro tbl c n dep oc rates hc hp hf
    simp [get_tsr_amount_for_employee, hc, hp, hf]
  · intro tbl c n r dep oc rates hc hp hf ha
    constructor <;> simp [get_tsr_amount_for_employee, hc, hp, hf, ha]

def tsrTblW : List TSRRow :=
  [{ code := Cell.int 102, name := "Consulting"
     amounts := fun cur => if cur = "INR" then none else some 50 }]

theorem C8_witness :
    get_tsr_amount_for_employee tsrTblW none "ONSITE" "Mexico" (fun _ => none)
      = (0, "", "") ∧
    get_tsr_amount_for_employee tsrTblW (some "ABC") "ONSITE" "Mexico" (fun _ => none)
      = (0, "", "") ∧
    get_tsr_amount_for_employee tsrTblW (some "999") "ONSITE" "Mexico" (fun _ => none)
      = (0, "", "") ∧
    (get_tsr_amount_for_employee tsrTblW (some "102 B") "NEARSHORE" "Mexico"
      (fun _ => none)).1 = 0 ∧
    (get_tsr_amount_for_employee tsrTblW (some "102 B") "NEARSHORE" "Mexico"
      (fun _ => none)).2.1 = "Consulting" := by
  obtain ⟨h1, h2, h3, h4, h5⟩ := C8_tsr_lookup_defaults
  have hcode : parseTSRCode "102 B" = some 102 := by decide
  have hfind : findTSRRecord tsrTblW 102
      = some { code := Cell.int 102, name := "Consulting"
               amounts := fun cur => if cur = "INR" then none else some 50 } := rfl
  have hamt := h5 tsrTblW "102 B" 102
    { code := Cell.int 102, name := "Consulting"
      amounts := fun cur => if cur = "INR" then none else some 50 }
    "NEARSHORE" "Mexico" (fun _ => none) (by decide) hcode hfind (by decide)
  exact ⟨h1 tsrTblW "ONSITE" "Mexico" (fun _ => none),
    h3 tsrTblW "ABC" "ONSITE" "Mexico" (fun _ => none) (by decide) (by decide),
    h4 tsrTblW "999" 999 "ONSITE" "Mexico" (fun _ => none) (by decide) (by decide) rfl,
    hamt.1, hamt.2⟩

theorem buildRecord_endDate (I : Inputs) (h : ∀ m : Fin 12, (monthFig I m).isSome) :
    (buildRecord I h).endDate
      = if I.params.employee_left then endDateStr I.params else I.row.endDate := rfl

def I35 : Inputs :=
  { wdc := fun _ => 21
    row := rowW2
    params :=
      { employee_left := true, left_in_month := 0, left_day := 35, left_year := "2024"
        leave_month := none, leave_days := 0, replacement_info := none }
    aug := fun _ => none }

def rep40 : ReplacementInfo :=
  { replacement_name := "Gina", replacement_id := "7", join_month := 1
    join_day := 40, join_year := "2024" }

/-- C9 counterexample: the exit triple (2024, Jan, 35) and the join triple
(2024, Feb, 40) are not valid calendar dates, yet the End date and Start Date
fields are set to the formatted strings "2024-01-35" and "2024-02-40", not
left blank. -/
theorem C9_counterexample :
    (buildRecord I35 (allMonthFig_isSome I35 (by decide))).endDate = "2024-01-35"
    ∧ (buildRepRecord I35 rep40
        (allRepMonthFig_isSome I35 rep40 (by decide))).startDate = "2024-02-40"
    ∧ ("2024-01-35" : String) ≠ "" ∧ ("2024-02-40" : String) ≠ "" := by
  refine ⟨?_, ?_, by decide, by decide⟩
  · rw [buildRecord_endDate]
    decide
  · show joinDateStr rep40 = "2024-02-40"
    decide

/-- C9 amended: no calendar validation is performed.  For an exiting employee
the End date is always the string year-MM-DD formatted from the exit triple,
and the replacement's Start Date is always the string formatted from the join
triple, whatever the day value; the computation never raises (the source's
try/except only guards the string formatting itself). -/
theorem C9_dates_formatted_unvalidated (I : Inputs)
    (h : ∀ m : Fin 12, (monthFig I m).isSome)
    (hL : I.params.employee_left = true)
    (rep : ReplacementInfo) (hr : ∀ m : Fin 12, (repMonthFig I rep m).isSome) :
    (buildRecord I h).endDate
      = I.params.left_year ++ "-" ++ pad2 ((I.params.left_in_month : ℕ) + 1 : ℤ)
          ++ "-" ++ pad2 I.params.left_day
    ∧ (buildRepRecord I rep hr).startDate
      = rep.join_year ++ "-" ++ pad2 ((rep.join_month : ℕ) + 1 : ℤ)
          ++ "-" ++ pad2 rep.join_day := by
  constructor
  · rw [buildRecord_endDate, if_pos hL]
    rfl
  · rfl

theorem C9_witness :
    (buildRecord I35 (allMonthFig_isSome I35 (by decide))).endDate
      = "2024" ++ "-" ++ pad2 1 ++ "-" ++ pad2 35
    ∧ (buildRepRecord I35 rep40
        (allRepMonthFig_isSome I35 rep40 (by decide))).startDate
      = "2024" ++ "-" ++ pad2 2 ++ "-" ++ pad2 40 :=
  C9_dates_formatted_unvalidated I35 (allMonthFig_isSome I35 (by decide)) rfl
    rep40 (allRepMonthFig_isSome I35 rep40 (by decide))

/-- C10: the replacement record is computed purely from the replacement policy
and the roster row: the secondary override dataset is never consulted (two
runs differing only in the override data give identical replacement records),
and the replacement's "Updated From CSV2" flag is always "No". -/
theorem C10_replacement_ignores_override (wdc : Fin 12 → ℕ) (row : EmployeeRow)
    (params : EmployeeParams) (aug aug' : Fin 12 → Option ℚ) (rep : ReplacementInfo)
    (h : ∀ m : Fin 12, (repMonthFig ⟨wdc, row, params, aug⟩ rep m).isSome)
    (h' : ∀ m : Fin 12, (repMonthFig ⟨wdc, row, params, aug'⟩ rep m).isSome) :
    buildRepRecord ⟨wdc, row, params, aug⟩ rep h
      = buildRepRecord ⟨wdc, row, params, aug'⟩ rep h'
    ∧ (buildRepRecord ⟨wdc, row, params, aug⟩ rep h).updatedFromCSV2 = "No" :=
  ⟨rfl, rfl⟩

theorem C10_witness :
    buildRepRecord IW4 repW (allRepMonthFig_isSome IW4 repW (by decide))
      = buildRepRecord ⟨IW4.wdc, IW4.row, IW4.params, fun _ => some 999⟩ repW
          (allRepMonthFig_isSome ⟨IW4.wdc, IW4.row, IW4.params, fun _ => some 999⟩ repW
            (by decide))
    ∧ (buildRepRecord IW4 repW
        (allRepMonthFig_isSome IW4 repW (by decide))).updatedFromCSV2 = "No" :=
  C10_replacement_ignores_override IW4.wdc IW4.row IW4.params IW4.aug (fun _ => some 999)
    repW (allRepMonthFig_isSome IW4 repW (by decide))
    (allRepMonthFig_isSome ⟨IW4.wdc, IW4.row, IW4.params, fun _ => some 999⟩ repW (by decide))

end BillingAnalyzer
